import Mathlib

/-!
Verification of the SafeWatch chat client (src/frontend/src/App.jsx) and of
the spec-described conversational report/query engine behind /api/chat.

The client turn handler `handleSend` is embedded as a pure transition on a
`ClientState`; the request result (axios success or failure) is a parameter.
Server-side components absent from the repository sources (Intent Classifier,
Field Extractor, Report Assembler, Query Engine, turn finalization) are
modelled from the spec, as marked in their doc comments.
-/

namespace SafeWatch

/-- Role of a chat message in the client's message list. -/
inductive Role where
  | user
  | bot
deriving DecidableEq, Repr

/-- One entry of the client's message list (App.jsx `messages` state).
Fields mirror the objects built in `handleSend`: `data` and `reportSaved`
are copied from the server response on success, `isError` marks the
catch-branch message. -/
structure Msg where
  role : Role
  content : String
  data : Option (List String) := none
  reportSaved : Option Bool := none
  isError : Bool := false
  timestamp : String := ""
deriving DecidableEq, Repr

/-- Body of a successful /api/chat response, per the external interface:
`{ response, data?, report_saved?, missing_info? }`. -/
structure ServerResponse where
  response : String
  data : Option (List String) := none
  report_saved : Option Bool := none
  missing_info : Option Bool := none
deriving DecidableEq, Repr

/-- The App component state relevant to a turn: `messages`, `input`,
`isLoading`, `pendingReport` (App.jsx lines 8-17). -/
structure ClientState where
  messages : List Msg
  input : String
  isLoading : Bool
  pendingReport : Option String
deriving DecidableEq, Repr

/-- JavaScript's `String.prototype.trim()` as used by `input.trim()`
(App.jsx line 29): whitespace removed from both ends. -/
def jsTrim (s : String) : String :=
  String.mk (((s.data.dropWhile Char.isWhitespace).reverse.dropWhile
    Char.isWhitespace).reverse)

/-- The message string posted to /api/chat (App.jsx lines 43-46):
`messageToSend = pendingReport ? \x7bpendingReport\x7d \x7bcontent\x7d : content`.
JavaScript truthiness of `pendingReport` makes both `null` and the empty
string fall through to the bare content. -/
def sentMessage (pending : Option String) (content : String) : String :=
  match pending with
  | some p => if p = "" then content else p ++ " " ++ content
  | none => content

/-- The user message object appended first (App.jsx lines 31-35). -/
def userMessage (s : ClientState) (ts : String) : Msg :=
  { role := Role.user, content := s.input, timestamp := ts }

/-- The bot message built from a successful response (App.jsx lines 50-56). -/
def botMessage (r : ServerResponse) (ts : String) : Msg :=
  { role := Role.bot, content := r.response, data := r.data,
    reportSaved := r.report_saved, timestamp := ts }

/-- The error message appended in the catch branch (App.jsx lines 71-76). -/
def errorMessage (ts : String) : Msg :=
  { role := Role.bot,
    content := "Sorry, I encountered an error connecting to the server.",
    isError := true, timestamp := ts }

/-- The single bot reply of a turn: the response message on success, the
fixed error message on failure. -/
def turnReply (result : Except Unit ServerResponse) (ts : String) : Msg :=
  match result with
  | Except.ok r => botMessage r ts
  | Except.error _ => errorMessage ts

/-- The request `handleSend` performs: none when the guard
`if (!input.trim()) return` (App.jsx line 29) fires, otherwise a POST of
`messageToSend` to /api/chat. -/
def requestOf (s : ClientState) : Option String :=
  if jsTrim s.input = "" then none else some (sentMessage s.pendingReport s.input)

/-- End-of-turn client state for `handleSend` (App.jsx lines 28-80).
`tsU`/`tsB` stand for the two `new Date().toISOString()` calls; `result` is
the outcome of the axios POST. On the guard the state is returned untouched;
otherwise the user message is appended, then on success the bot message is
appended and `pendingReport` is set to the accumulated `messageToSend` iff
`missing_info` is truthy (lines 60-67), while on failure the error message
is appended and `pendingReport` is left as it was (lines 69-76); `input` is
cleared at line 38 and `isLoading` ends false via the finally block. -/
def handleSend (s : ClientState) (tsU tsB : String)
    (result : Except Unit ServerResponse) : ClientState :=
  if jsTrim s.input = "" then s
  else
    let msgs1 := s.messages ++ [userMessage s tsU]
    let m := sentMessage s.pendingReport s.input
    match result with
    | Except.ok r =>
        { messages := msgs1 ++ [botMessage r tsB]
          input := ""
          isLoading := false
          pendingReport := if r.missing_info.getD false then some m else none }
    | Except.error _ =>
        { messages := msgs1 ++ [errorMessage tsB]
          input := ""
          isLoading := false
          pendingReport := s.pendingReport }

/-- Rendering of a bot message's `data` list (App.jsx line 155):
`msg.data.slice(0, 5)` — at most the first five summaries are shown. -/
def renderedData (data : List String) : List String :=
  data.take 5

/-! Server-side engine. The repository ships only the front end; the
engine behind /api/chat is reconstructed here from the specification. -/

/-- Intent of an incoming message, per the Intent Classifier contract. -/
inductive Intent where
  | REPORT
  | QUERY
deriving DecidableEq, Repr

/-- Gender enumeration of the data model. -/
inductive Gender where
  | male
  | female
  | other
  | unknown
deriving DecidableEq, Repr

/-- Modelled from the spec: tokenization used by the heuristic components
(Intent Classifier, Field Extractor), which match vocabulary and tokens
case-insensitively; the server code is not under src/. Splits the
lowercased text on spaces, dropping empty tokens. -/
def wordsAux : List Char → List Char → List (List Char)
  | [], acc => [acc.reverse]
  | c :: rest, acc =>
      if c = ' ' then acc.reverse :: wordsAux rest [] else wordsAux rest (c :: acc)

/-- Modelled from the spec: the lowercased word list of a text (see
`wordsAux`). -/
def lowerWords (text : String) : List String :=
  ((wordsAux (text.data.map Char.toLower) []).filter (fun w => w ≠ [])).map
    String.mk

/-- Modelled from the spec: report-indicating vocabulary of the Intent
Classifier ("verbs of reporting, symptom/adverse-event phrasing"); the
server code is not under src/. -/
def reportVocab : List String :=
  ["report", "reporting", "had", "experienced", "suffered", "suffering",
   "took", "taking", "reaction", "effect", "symptom"]

/-- Modelled from the spec: the Intent Classifier
`classify(accumulatedText, hasPendingReport)`; the server code is not under
src/. A pending report short-circuits to REPORT; otherwise report vocabulary
decides REPORT, and ties default to QUERY. -/
def classify (text : String) (hasPendingReport : Bool) : Intent :=
  if hasPendingReport then Intent.REPORT
  else if (lowerWords text).any (fun w => reportVocab.contains w) then
    Intent.REPORT
  else Intent.QUERY

/-- The subset of the four slots resolved by one extraction pass. -/
structure PartialFields where
  drug : Option String := none
  reaction : Option String := none
  age : Option Nat := none
  gender : Option Gender := none
deriving DecidableEq, Repr

/-- Accumulated free text plus whichever slots have been resolved so far. -/
structure PartialReport where
  rawText : List String := []
  drug : Option String := none
  reaction : Option String := none
  age : Option Nat := none
  gender : Option Gender := none
deriving DecidableEq, Repr

/-- Parses a token made of decimal digits only; anything else is not an
integer token. -/
def digitsToNat? (cs : List Char) : Option Nat :=
  if cs ≠ [] && cs.all Char.isDigit then
    some (cs.foldl (fun acc c => acc * 10 + (c.toNat - 48)) 0)
  else none

/-- Modelled from the spec: the age rule of the Field Extractor — an
integer token in the range 0 < age < 130; out-of-range integers are
ignored, not clamped; the server code is not under src/. -/
def extractAge (text : String) : Option Nat :=
  (((lowerWords text).filterMap (fun w => digitsToNat? w.data)).filter
    (fun n => decide (0 < n) && decide (n < 130))).head?

/-- Modelled from the spec: closed gender vocabulary, matched
case-insensitively; the server code is not under src/. -/
def genderVocab : List (String × Gender) :=
  [("male", Gender.male), ("man", Gender.male), ("m", Gender.male),
   ("female", Gender.female), ("woman", Gender.female), ("f", Gender.female),
   ("other", Gender.other)]

/-- Modelled from the spec: the gender rule of the Field Extractor;
unmatched means absent, never defaulted; the server code is not under
src/. -/
def extractGender (text : String) : Option Gender :=
  ((lowerWords text).filterMap
    (fun w => ((genderVocab.find? (fun kv => kv.1 = w)).map Prod.snd))).head?

/-- Modelled from the spec: known drug vocabulary of the Field Extractor;
the server code is not under src/. -/
def knownDrugs : List String :=
  ["aspirin", "ibuprofen", "paracetamol", "insulin", "metformin"]

/-- Modelled from the spec: known reaction vocabulary of the Field
Extractor; the server code is not under src/. -/
def knownReactions : List String :=
  ["headache", "nausea", "rash", "dizziness", "vomiting", "fever"]

/-- Modelled from the spec: the drug rule of the Field Extractor
(known-vocabulary lookup); the server code is not under src/. -/
def extractDrug (text : String) : Option String :=
  ((lowerWords text).filter (fun w => knownDrugs.contains w)).head?

/-- Modelled from the spec: the reaction rule of the Field Extractor
(known-vocabulary lookup); the server code is not under src/. -/
def extractReaction (text : String) : Option String :=
  ((lowerWords text).filter (fun w => knownReactions.contains w)).head?

/-- Modelled from the spec: the Field Extractor
`extract(text) -> PartialFields`; any subset of the four slots may be
populated, absence of a match yields an unset field; the server code is not
under src/. -/
def extract (text : String) : PartialFields :=
  { drug := extractDrug text, reaction := extractReaction text,
    age := extractAge text, gender := extractGender text }

/-- Last-mention-wins slot combination: a newly extracted value overwrites,
an absent new value retains the prior one. -/
def slotMerge {α : Type} (newV prevV : Option α) : Option α :=
  match newV with
  | some v => some v
  | none => prevV

/-- The PartialReport with nothing resolved, created on the first
report-intent message. -/
def emptyPartial : PartialReport := {}

/-- True iff all four slots of the partial report are set. -/
def isComplete (p : PartialReport) : Bool :=
  p.drug.isSome && p.reaction.isSome && p.age.isSome && p.gender.isSome

/-- Modelled from the spec: the Report Assembler
`merge(existing, newFields, newText) -> (PartialReport, isComplete)`; new
fields overwrite same-slot values, absent fields retain prior values,
`rawText` is appended with `newText`; the server code is not under src/. -/
def merge (existing : Option PartialReport) (newFields : PartialFields)
    (newText : String) : PartialReport × Bool :=
  let prev := existing.getD emptyPartial
  let next : PartialReport :=
    { rawText := prev.rawText ++ [newText]
      drug := slotMerge newFields.drug prev.drug
      reaction := slotMerge newFields.reaction prev.reaction
      age := slotMerge newFields.age prev.age
      gender := slotMerge newFields.gender prev.gender }
  (next, isComplete next)

/-- A finalized structured record, owned by the Record Store once
persisted. -/
structure Report where
  id : Nat
  drugName : String
  reaction : String
  age : Nat
  gender : Gender
  reportedAt : String
deriving DecidableEq, Repr

/-- A transient query result: the displayed (truncated) matches and the
total match count before truncation. -/
structure QueryResult where
  «matches» : List Report
  truncatedCount : Nat
deriving DecidableEq, Repr

/-- Modelled from the spec: `findByDrug` of the Record Store, exact match
on the normalized drug name; the server code is not under src/. -/
def findByDrug (store : List Report) (name : String) : List Report :=
  store.filter (fun r => r.drugName = name)

/-- Modelled from the spec: term normalization of the Query Engine (trim,
lowercase); the server code is not under src/. -/
def normalizeTerm (t : String) : String :=
  String.mk ((jsTrim t).data.map Char.toLower)

/-- Modelled from the spec: the Query Engine `query(term) -> QueryResult`;
normalizes the term, delegates to the Record Store, truncates the displayed
matches to the cap of 5 and reports the true count separately; the server
code is not under src/. -/
def query (store : List Report) (term : String) : QueryResult :=
  let found := findByDrug store (normalizeTerm term)
  { «matches» := found.take 5, truncatedCount := found.length }

/-- One operation on the Record Store boundary: an append of a completed
report, or a read-only query. -/
inductive StoreOp where
  | append (r : Report)
  | runQuery (t : String)

/-- Modelled from the spec: the Record Store state transition — appends add
a report at the end, queries read without writing; the server code is not
under src/. -/
def storeStep (store : List Report) : StoreOp → List Report × Option QueryResult
  | StoreOp.append r => (store ++ [r], none)
  | StoreOp.runQuery t => (store, some (query store t))

/-- Promotion of a complete PartialReport to a Report at persistence time
(`getD` defaults are never used on a complete report). -/
def toReport (p : PartialReport) (id : Nat) (ts : String) : Report :=
  { id := id, drugName := normalizeTerm (p.drug.getD ""),
    reaction := p.reaction.getD "", age := p.age.getD 0,
    gender := p.gender.getD Gender.unknown, reportedAt := ts }

/-- Modelled from the spec: the server-side finalization of a report turn —
a complete pending report is appended to the Record Store and the pending
state cleared; if the append fails with PersistenceError the pending
PartialReport is not cleared, so the next turn can retry; the server code
is not under src/. Returns the next pending state, the next store, and
whether the report was saved. -/
def finalizeTurn (pending : PartialReport) (store : List Report)
    (appendOk : Bool) (ts : String) : Option PartialReport × List Report × Bool :=
  if isComplete pending then
    if appendOk then
      (none, store ++ [toReport pending store.length ts], true)
    else (some pending, store, false)
  else (some pending, store, false)

/-- A nonempty raw input yields a nonempty message to send. -/
theorem sentMessage_ne_empty (p : Option String) (c : String) (hc : c ≠ "") :
    sentMessage p c ≠ "" := by
  cases p with
  | none => simpa [sentMessage] using hc
  | some q =>
      by_cases hq : q = ""
      · simpa [sentMessage, hq] using hc
      · intro h
        simp only [sentMessage, if_neg hq] at h
        have hd := congrArg String.data h
        simp [String.data_append] at hd

/-- A state whose input does not trim to the empty string has nonempty input. -/
theorem input_ne_empty_of_trim (s : ClientState) (h : jsTrim s.input ≠ "") :
    s.input ≠ "" := by
  intro h0
  apply h
  rw [h0]
  rfl

/-- C1: Client-side accumulation — after a turn whose server response had
`missing_info` true, the message the client would send for the next input
equals the previously sent accumulated message, a single space, and the new
input; and when no report is pending, the message sent is the new input
alone. -/
theorem c1_client_accumulation (s : ClientState) (tsU tsB : String)
    (r : ServerResponse) (next : String)
    (hin : jsTrim s.input ≠ "") (hmi : r.missing_info = some true) :
    sentMessage (handleSend s tsU tsB (Except.ok r)).pendingReport next
      = sentMessage s.pendingReport s.input ++ " " ++ next
    ∧ (s.pendingReport = none → sentMessage s.pendingReport s.input = s.input) := by
  have hne : s.input ≠ "" := input_ne_empty_of_trim s hin
  have hm : sentMessage s.pendingReport s.input ≠ "" :=
    sentMessage_ne_empty _ _ hne
  have hsome : ∀ (m c : String), m ≠ "" → sentMessage (some m) c = m ++ " " ++ c := by
    intro m c hm0
    simp [sentMessage, hm0]
  constructor
  · have hpend : (handleSend s tsU tsB (Except.ok r)).pendingReport
        = some (sentMessage s.pendingReport s.input) := by
      simp [handleSend, if_neg hin, hmi]
    rw [hpend, hsome _ _ hm]
  · intro h
    simp [sentMessage, h]

/-- Witness for C1 at a concrete two-turn scenario. -/
theorem c1_client_accumulation_witness :
    jsTrim "I had a headache after aspirin" ≠ ""
    ∧ sentMessage (handleSend
        { messages := [], input := "I had a headache after aspirin",
          isLoading := false, pendingReport := none } "t1" "t2"
        (Except.ok { response := "What is the age?", missing_info := some true })).pendingReport
        "34 male"
      = sentMessage none "I had a headache after aspirin" ++ " " ++ "34 male" :=
  ⟨by decide,
   (c1_client_accumulation
     { messages := [], input := "I had a headache after aspirin",
       isLoading := false, pendingReport := none } "t1" "t2"
     { response := "What is the age?", missing_info := some true } "34 male"
     (by decide) rfl).1⟩

/-- C2 counterexample: a plain conversational reply (no data, no
report_saved, missing_info absent) received while a report is pending does
change the client's pending-report state — it is cleared, not kept. -/
theorem c2_plain_reply_counterexample :
    (handleSend
        { messages := [], input := "hello", isLoading := false,
          pendingReport := some "I had a rash after taking ibuprofen" }
        "t1" "t2" (Except.ok { response := "Hello! How can I help?" })).pendingReport
      ≠ some "I had a rash after taking ibuprofen" := by decide

/-- C2 (amended): on any successful response with neither data nor
report_saved and missing_info absent or false, the client clears the
pending-report state to null; the state is unchanged by the turn exactly
when no report was pending before it. -/
theorem c2_plain_reply_clears (s : ClientState) (tsU tsB : String)
    (r : ServerResponse) (hin : jsTrim s.input ≠ "")
    (_hd : r.data = none) (_hrs : r.report_saved = none)
    (hmi : r.missing_info = none ∨ r.missing_info = some false) :
    (handleSend s tsU tsB (Except.ok r)).pendingReport = none
    ∧ ((handleSend s tsU tsB (Except.ok r)).pendingReport = s.pendingReport
        ↔ s.pendingReport = none) := by
  have h1 : (handleSend s tsU tsB (Except.ok r)).pendingReport = none := by
    rcases hmi with h | h <;> simp [handleSend, if_neg hin, h]
  refine ⟨h1, ?_⟩
  rw [h1]
  exact ⟨fun h => h.symm, fun h => h.symm⟩

/-- Witness for C2 (amended) at a concrete pending state. -/
theorem c2_plain_reply_clears_witness :
    (handleSend
        { messages := [], input := "thanks", isLoading := false,
          pendingReport := some "I had nausea after taking insulin" }
        "t1" "t2" (Except.ok { response := "You are welcome." })).pendingReport
      = none :=
  (c2_plain_reply_clears
    { messages := [], input := "thanks", isLoading := false,
      pendingReport := some "I had nausea after taking insulin" } "t1" "t2"
    { response := "You are welcome." } (by decide) rfl rfl (Or.inl rfl)).1

/-- C3: failure preserves pending state — a failed /api/chat request leaves
the client's accumulated pending-report state unchanged, and a server-side
append that fails with PersistenceError leaves the session's pending
PartialReport in place for a retry. -/
theorem c3_failure_preserves_pending :
    (∀ (s : ClientState) (tsU tsB : String),
      (handleSend s tsU tsB (Except.error ())).pendingReport = s.pendingReport)
    ∧ (∀ (p : PartialReport) (store : List Report) (ts : String),
      (finalizeTurn p store false ts).1 = some p) := by
  constructor
  · intro s tsU tsB
    by_cases h : jsTrim s.input = "" <;> simp [handleSend, h]
  · intro p store ts
    by_cases h : isComplete p <;> simp [finalizeTurn, h]

/-- C4: query display truncation — the rendered data list has at most 5
entries, agrees with the given list on the first 5 positions (same order),
and shows nothing beyond position 5, whatever the list's length. -/
theorem c4_query_display_truncation (d : List String) :
    (renderedData d).length ≤ 5
    ∧ (∀ i : Nat, i < 5 → (renderedData d)[i]? = d[i]?)
    ∧ (∀ i : Nat, 5 ≤ i → (renderedData d)[i]? = none) := by
  refine ⟨?_, ?_, ?_⟩
  · simp [renderedData, List.length_take]
  · intro i hi
    simp [renderedData, List.getElem?_take, hi]
  · intro i hi
    apply List.getElem?_eq_none
    calc (renderedData d).length ≤ 5 := by simp [renderedData, List.length_take]
      _ ≤ i := hi

/-- Witness for C4 on a 7-element list. -/
theorem c4_query_display_truncation_witness :
    ((2 : Nat) < 5
      ∧ (renderedData ["a", "b", "c", "d", "e", "f", "g"])[2]?
          = (["a", "b", "c", "d", "e", "f", "g"] : List String)[2]?)
    ∧ ((5 : Nat) ≤ 6
      ∧ (renderedData ["a", "b", "c", "d", "e", "f", "g"])[6]? = none) :=
  ⟨⟨by decide, (c4_query_display_truncation ["a", "b", "c", "d", "e", "f", "g"]).2.1 2 (by decide)⟩,
   ⟨by decide, (c4_query_display_truncation ["a", "b", "c", "d", "e", "f", "g"]).2.2 6 (by decide)⟩⟩

/-- C5: classifier short-circuit — with a pending report every text is
classified REPORT, and the result with `hasPendingReport = true` does not
depend on the text at all, so the heuristics only matter when it is
false. -/
theorem c5_classifier_short_circuit :
    (∀ text : String, classify text true = Intent.REPORT)
    ∧ (∀ t1 t2 : String, classify t1 true = classify t2 true) :=
  ⟨fun _ => rfl, fun _ _ => rfl⟩

/-- C6: age range policy — the extractor only ever sets the age slot to an
integer n with 0 < n < 130, and text with the out-of-range token 250 leaves
the age slot unset. -/
theorem c6_age_range_policy :
    (∀ (text : String) (n : Nat), (extract text).age = some n → 0 < n ∧ n < 130)
    ∧ (extract "The patient is age 250").age = none := by
  constructor
  · intro text n h
    have h' : (((lowerWords text).filterMap (fun w => digitsToNat? w.data)).filter
        (fun n => decide (0 < n) && decide (n < 130))).head? = some n := h
    have hm : n ∈ ((lowerWords text).filterMap (fun w => digitsToNat? w.data)).filter
        (fun n => decide (0 < n) && decide (n < 130)) :=
      List.mem_of_mem_head? (Option.mem_def.mpr h')
    have hp := List.of_mem_filter hm
    simpa using hp
  · decide

/-- Witness for C6 at a concrete in-range age. -/
theorem c6_age_range_policy_witness :
    (extract "I am 34 male").age = some 34 ∧ (0 < 34 ∧ 34 < 130) :=
  ⟨by decide, c6_age_range_policy.1 "I am 34 male" 34 (by decide)⟩

/-- C7: query idempotence — a query step does not change the Record Store,
it returns exactly `query store t`, and hence a second query with no
intervening write returns an identical QueryResult (same matches, same
truncatedCount). -/
theorem c7_query_idempotence (store : List Report) (t : String) :
    (storeStep store (StoreOp.runQuery t)).1 = store
    ∧ (storeStep store (StoreOp.runQuery t)).2 = some (query store t)
    ∧ (storeStep (storeStep store (StoreOp.runQuery t)).1 (StoreOp.runQuery t)).2
        = (storeStep store (StoreOp.runQuery t)).2 :=
  ⟨rfl, rfl, rfl⟩

/-- C8: last-mention-wins merge — for each of the four slots a value
present in the new fields overwrites the previous slot value, an absent one
retains it, and merging age 30 then age 45 yields age 45. -/
theorem c8_last_mention_wins (p : PartialReport) (nf : PartialFields)
    (t : String) :
    ((∀ a : Nat, nf.age = some a → (merge (some p) nf t).1.age = some a)
      ∧ (nf.age = none → (merge (some p) nf t).1.age = p.age))
    ∧ ((∀ d : String, nf.drug = some d → (merge (some p) nf t).1.drug = some d)
      ∧ (nf.drug = none → (merge (some p) nf t).1.drug = p.drug))
    ∧ ((∀ r : String, nf.reaction = some r → (merge (some p) nf t).1.reaction = some r)
      ∧ (nf.reaction = none → (merge (some p) nf t).1.reaction = p.reaction))
    ∧ ((∀ g : Gender, nf.gender = some g → (merge (some p) nf t).1.gender = some g)
      ∧ (nf.gender = none → (merge (some p) nf t).1.gender = p.gender))
    ∧ (merge (some (merge none { age := some 30 } "turn one").1)
        { age := some 45 } "turn two").1.age = some 45 := by
  refine ⟨⟨?_, ?_⟩, ⟨?_, ?_⟩, ⟨?_, ?_⟩, ⟨?_, ?_⟩, by decide⟩ <;>
    first
      | (intro x h; simp [merge, slotMerge, h])
      | (intro h; simp [merge, slotMerge, h])

/-- Witness for C8 at a concrete overwrite of a set age slot. -/
theorem c8_last_mention_wins_witness :
    ({ age := some 45 } : PartialFields).age = some 45
    ∧ (merge (some { rawText := ["first turn"], age := some 30 })
        { age := some 45 } "second turn").1.age = some 45 :=
  ⟨rfl,
   (c8_last_mention_wins { rawText := ["first turn"], age := some 30 }
     { age := some 45 } "second turn").1.1 45 rfl⟩

/-- C9: empty-input guard — when the input trims to the empty string, no
request is made and the whole client state (messages, pending report,
loading flag) is unchanged. -/
theorem c9_empty_input_guard (s : ClientState) (tsU tsB : String)
    (result : Except Unit ServerResponse) (h : jsTrim s.input = "") :
    requestOf s = none ∧ handleSend s tsU tsB result = s := by
  constructor
  · simp [requestOf, h]
  · simp [handleSend, h]

/-- Witness for C9 at a whitespace-only input. -/
theorem c9_empty_input_guard_witness :
    jsTrim "   " = ""
    ∧ handleSend
        { messages := [], input := "   ", isLoading := false,
          pendingReport := none } "t1" "t2" (Except.error ())
      = { messages := [], input := "   ", isLoading := false,
          pendingReport := none } :=
  ⟨by decide,
   (c9_empty_input_guard
     { messages := [], input := "   ", isLoading := false,
       pendingReport := none } "t1" "t2" (Except.error ()) (by decide)).2⟩

/-- C10: append-only message log — a completed turn appends exactly the
user message followed by one bot reply (the server response on success, the
error message on failure) to the end of the message list, leaving all
earlier entries in place. -/
theorem c10_append_only_log (s : ClientState) (tsU tsB : String)
    (result : Except Unit ServerResponse) (h : jsTrim s.input ≠ "") :
    (handleSend s tsU tsB result).messages
      = s.messages ++ [userMessage s tsU, turnReply result tsB]
    ∧ (userMessage s tsU).role = Role.user
    ∧ (turnReply result tsB).role = Role.bot := by
  refine ⟨?_, rfl, ?_⟩
  · cases result with
    | ok r => simp [handleSend, if_neg h, turnReply]
    | error e => simp [handleSend, if_neg h, turnReply]
  · cases result <;> rfl

/-- Witness for C10 at a concrete successful turn. -/
theorem c10_append_only_log_witness :
    jsTrim "hi" ≠ ""
    ∧ (handleSend
        { messages := [], input := "hi", isLoading := false,
          pendingReport := none } "t1" "t2"
        (Except.ok { response := "Hello!" })).messages
      = [] ++ [userMessage
          { messages := [], input := "hi", isLoading := false,
            pendingReport := none } "t1",
          turnReply (Except.ok { response := "Hello!" }) "t2"] :=
  ⟨by decide,
   (c10_append_only_log
     { messages := [], input := "hi", isLoading := false,
       pendingReport := none } "t1" "t2"
     (Except.ok { response := "Hello!" }) (by decide)).1⟩

end SafeWatch
